import Mathlib

/-
Verification of the simplechat Lambda request handlers (lambda/index.py).

The embedding models JSON values as an inductive type, Python dict/list/string
operations as functions into Except String (an error models a raised
exception), and each Lambda entry
point as a pure function of (backend stub, decoded event body) returning the
HTTP-style response structure built by the source.  The two external backends
(Bedrock invoke_model and the self-hosted FastAPI service, together with their
transports and the json.loads of their reply bodies) are passed in as a
function `Json → Except String Json`: an `Except.error` stands for a raised
transport or decode exception, an `Except.ok j` for a successfully decoded
reply body.  The lazily-initialized boto3 client (index.py lines 108-112) is
part of this abstracted backend; `extract_region_from_arn` is modeled
separately.  Error message strings follow Python's messages in spirit; the
source never inspects them, only str(error) into the failure envelope.
-/

namespace SimpleChat

/-- JSON values, as produced by json.loads.  Numbers are modeled as rationals
(the source does no arithmetic on them, it only passes them through). -/
inductive Json where
  | null : Json
  | bool : Bool → Json
  | num : Rat → Json
  | str : String → Json
  | arr : List Json → Json
  | obj : List (String × Json) → Json

/-- First value bound to key `k` in a decoded JSON object. -/
def lookupKey (k : String) : List (String × Json) → Option Json
  | [] => none
  | (k2, v) :: rest => if k2 = k then some v else lookupKey k rest

/-- Python subscript `j[k]` with a string key: KeyError on a dict without the
key, TypeError on any non-dict. -/
def pySubscript (j : Json) (k : String) : Except String Json :=
  match j with
  | .obj kvs =>
    match lookupKey k kvs with
    | some v => .ok v
    | none => .error ("KeyError: " ++ k)
  | _ => .error "TypeError: object is not subscriptable by string"

/-- Python `d.get(k)` (default None): AttributeError on any non-dict. -/
def pyDictGet (j : Json) (k : String) : Except String Json :=
  match j with
  | .obj kvs => .ok ((lookupKey k kvs).getD .null)
  | _ => .error "AttributeError: object has no attribute get"

/-- Python `d.get(k, default)`: AttributeError on any non-dict. -/
def pyDictGetD (j : Json) (k : String) (d : Json) : Except String Json :=
  match j with
  | .obj kvs => .ok ((lookupKey k kvs).getD d)
  | _ => .error "AttributeError: object has no attribute get"

/-- Python `k in j` for a string k: key test on dicts, membership on lists,
substring test on strings, TypeError on non-iterables. -/
def pyContains (j : Json) (k : String) : Except String Bool :=
  match j with
  | .obj kvs => .ok (lookupKey k kvs).isSome
  | .arr xs => .ok (xs.any (fun x => match x with | .str s => s == k | _ => false))
  | .str s => .ok (decide ((s.splitOn k).length > 1))
  | _ => .error "TypeError: argument is not iterable"

/-- Python truthiness of a decoded JSON value. -/
def pyTruthy (j : Json) : Bool :=
  match j with
  | .null => false
  | .bool b => b
  | .num n => decide (n ≠ 0)
  | .str s => decide (s ≠ "")
  | .arr xs => !xs.isEmpty
  | .obj kvs => !kvs.isEmpty

/-- Python `j[0]`: head of a list, first character of a string, KeyError on a
dict (JSON-decoded dicts have string keys, never the key 0), TypeError
otherwise. -/
def pyIndexZero (j : Json) : Except String Json :=
  match j with
  | .arr (x :: _) => .ok x
  | .arr [] => .error "IndexError: list index out of range"
  | .str s =>
    if s.isEmpty then .error "IndexError: string index out of range"
    else .ok (.str s.front.toString)
  | .obj _ => .error "KeyError: 0"
  | _ => .error "TypeError: object is not subscriptable"

/-- Python `h.copy()` followed by `.append(x)` on a decoded JSON value
(index.py lines 65-69 and 131-137): list semantics; any non-list raises
AttributeError at copy or at append, collapsed here into one error. -/
def pyListCopyAppend (j : Json) (x : Json) : Except String (List Json) :=
  match j with
  | .arr xs => .ok (xs ++ [x])
  | _ => .error "AttributeError: object has no list copy and append"

/-- json.loads of the raw event body: `none` stands for an event whose body
is absent or not valid JSON, so json.loads raises. -/
def parseBody (eventBody : Option Json) : Except String Json :=
  match eventBody with
  | none => .error "Expecting value: not valid JSON"
  | some b => .ok b

/-- The HTTP-style response value returned by both entry points. -/
structure HttpResponse where
  statusCode : Nat
  headers : List (String × String)
  body : Json

/-- The fixed header mapping built on every return (index.py lines 73-78,
92-97, 194-199, 212-217). -/
def corsHeaders : List (String × String) :=
  [("Content-Type", "application/json"),
   ("Access-Control-Allow-Origin", "*"),
   ("Access-Control-Allow-Headers",
     "Content-Type,X-Amz-Date,Authorization,X-Api-Key,X-Amz-Security-Token"),
   ("Access-Control-Allow-Methods", "OPTIONS,POST")]

/-- The failure envelope built in both except-blocks (lines 90-102, 210-222). -/
def errorResponse (msg : String) : HttpResponse :=
  HttpResponse.mk 500 corsHeaders
    (Json.obj [("success", Json.bool false), ("error", Json.str msg)])

/-- The generation request body built for the self-hosted backend
(index.py lines 33-39). -/
def fastapiPayload (message : Json) : Json :=
  Json.obj [("prompt", message),
            ("max_new_tokens", Json.num 512),
            ("do_sample", Json.bool true),
            ("temperature", Json.num (7/10)),
            ("top_p", Json.num (9/10))]

/-- Validation and extraction of the self-hosted backend reply (index.py
lines 59-63): both key-membership tests, short-circuited as in the source,
then the two subscripts. -/
def fastapiValidate (api_result : Json) : Except String (Json × Json) :=
  match pyContains api_result "generated_text" with
  | .error m => .error m
  | .ok hasGen =>
    if hasGen = false then .error "Unexpected response from FastAPI"
    else
      match pyContains api_result "response_time" with
      | .error m => .error m
      | .ok hasTime =>
        if hasTime = false then .error "Unexpected response from FastAPI"
        else
          match pySubscript api_result "generated_text" with
          | .error m => .error m
          | .ok g =>
            match pySubscript api_result "response_time" with
            | .error m => .error m
            | .ok t => .ok (g, t)

/-- The new assistant turn appended to the history (lines 66-69, 186-189). -/
def assistantTurn (t : Json) : Json :=
  Json.obj [("role", Json.str "assistant"), ("content", t)]

/-- The new user turn appended to the history (lines 134-137). -/
def userTurn (m : Json) : Json :=
  Json.obj [("role", Json.str "user"), ("content", m)]

/-- The try-block of lambda_fastapi_handler (index.py lines 26-69), step by
step in source order: parse the body, read message, read the history with
default [], POST the payload to the backend, validate the reply, then copy
the history and append the assistant turn.  Result: (generated text,
response time, updated history). -/
def fastapiComp (backend : Json → Except String Json)
    (eventBody : Option Json) : Except String (Json × Json × List Json) :=
  match parseBody eventBody with
  | .error m => .error m
  | .ok body =>
    match pySubscript body "message" with
    | .error m => .error m
    | .ok message =>
      match pyDictGetD body "conversationHistory" (Json.arr []) with
      | .error m => .error m
      | .ok conversation_history =>
        match backend (fastapiPayload message) with
        | .error m => .error m
        | .ok api_result =>
          match fastapiValidate api_result with
          | .error m => .error m
          | .ok (g, t) =>
            match pyListCopyAppend conversation_history (assistantTurn g) with
            | .error m => .error m
            | .ok updated_history => .ok (g, t, updated_history)

/-- Entry point B, lambda_fastapi_handler (index.py lines 25-102): the
try-block result wrapped in the success envelope (lines 71-85) or the
failure envelope (lines 87-102). -/
def lambda_fastapi_handler (backend : Json → Except String Json)
    (eventBody : Option Json) : HttpResponse :=
  match fastapiComp backend eventBody with
  | .ok (g, t, updated_history) =>
    HttpResponse.mk 200 corsHeaders
      (Json.obj [("success", Json.bool true),
                 ("response", g),
                 ("response_time", t),
                 ("conversationHistory", Json.arr updated_history)])
  | .error m => errorResponse m

/-- One mapped hosted-backend message (index.py lines 144-147, 149-152). -/
def bedrockTurn (role : String) (content : Json) : Json :=
  Json.obj [("role", Json.str role),
            ("content", Json.arr [Json.obj [("text", content)]])]

/-- Python `j == "s"` for a decoded value and a string literal: true exactly
when j is that string. -/
def isStrEq (j : Json) (s : String) : Bool :=
  match j with
  | .str s2 => s2 == s
  | _ => false

/-- The role-filtering mapping loop of lambda_handler (index.py lines
141-152): read msg["role"] (KeyError propagates), keep user/assistant turns
mapped to bedrockTurn shape reading msg["content"], silently drop every
other role. -/
def buildBedrockMessages : List Json → Except String (List Json)
  | [] => .ok []
  | msg :: rest =>
    match pySubscript msg "role" with
    | .error m => .error m
    | .ok role =>
      if isStrEq role "user" then
        match pySubscript msg "content" with
        | .error m => .error m
        | .ok content =>
          match buildBedrockMessages rest with
          | .error m => .error m
          | .ok tail => .ok (bedrockTurn "user" content :: tail)
      else if isStrEq role "assistant" then
        match pySubscript msg "content" with
        | .error m => .error m
        | .ok content =>
          match buildBedrockMessages rest with
          | .error m => .error m
          | .ok tail => .ok (bedrockTurn "assistant" content :: tail)
      else buildBedrockMessages rest

/-- The fixed inference configuration (index.py lines 157-162). -/
def inferenceConfig : Json :=
  Json.obj [("maxTokens", Json.num 512),
            ("stopSequences", Json.arr []),
            ("temperature", Json.num (7/10)),
            ("topP", Json.num (9/10))]

/-- The invoke_model request payload (index.py lines 155-163). -/
def bedrockPayload (bedrock_messages : List Json) : Json :=
  Json.obj [("messages", Json.arr bedrock_messages),
            ("inferenceConfig", inferenceConfig)]

/-- Validation and extraction of the hosted backend reply (index.py lines
179-183): the three short-circuited truthiness checks of line 179 (each .get
raising AttributeError on a non-dict), then the extraction
response_body[output][message][content][0][text] of line 183. -/
def hostedValidate (response_body : Json) : Except String Json :=
  match pyDictGet response_body "output" with
  | .error m => .error m
  | .ok output =>
    if pyTruthy output = false then .error "No response content from the model"
    else
      match pyDictGet output "message" with
      | .error m => .error m
      | .ok message =>
        if pyTruthy message = false then .error "No response content from the model"
        else
          match pyDictGet message "content" with
          | .error m => .error m
          | .ok content =>
            if pyTruthy content = false then .error "No response content from the model"
            else
              match pyIndexZero content with
              | .error m => .error m
              | .ok c0 => pySubscript c0 "text"

/-- The try-block of lambda_handler (index.py lines 106-205) with the boto3
client acquisition and the authorizer logging abstracted away: parse the
body, read message, read the history with default [], copy it and append
the user turn, map the turns, call the backend on the invoke_model payload,
validate the reply, append the assistant turn.  Result: (assistant reply,
final history). -/
def hostedComp (backend : Json → Except String Json)
    (eventBody : Option Json) : Except String (Json × List Json) :=
  match parseBody eventBody with
  | .error m => .error m
  | .ok body =>
    match pySubscript body "message" with
    | .error m => .error m
    | .ok message =>
      match pyDictGetD body "conversationHistory" (Json.arr []) with
      | .error m => .error m
      | .ok conversation_history =>
        match pyListCopyAppend conversation_history (userTurn message) with
        | .error m => .error m
        | .ok messages =>
          match buildBedrockMessages messages with
          | .error m => .error m
          | .ok bedrock_messages =>
            match backend (bedrockPayload bedrock_messages) with
            | .error m => .error m
            | .ok response_body =>
              match hostedValidate response_body with
              | .error m => .error m
              | .ok assistant_response =>
                .ok (assistant_response, messages ++ [assistantTurn assistant_response])

/-- Entry point A, lambda_handler (index.py lines 105-222): the try-block
result wrapped in the success envelope (lines 192-205) or the failure
envelope (lines 207-222). -/
def lambda_handler (backend : Json → Except String Json)
    (eventBody : Option Json) : HttpResponse :=
  match hostedComp backend eventBody with
  | .ok (assistant_response, messages) =>
    HttpResponse.mk 200 corsHeaders
      (Json.obj [("success", Json.bool true),
                 ("response", assistant_response),
                 ("conversationHistory", Json.arr messages)])
  | .error m => errorResponse m

/-- Key lookup on a JSON object, none on a non-object: the pure view used in
theorem statements to say a decoded body has or lacks a field. -/
def objGet? (j : Json) (k : String) : Option Json :=
  match j with
  | .obj kvs => lookupKey k kvs
  | _ => none

/-- The pure per-turn mapping of the role filter (index.py lines 142-152):
user and assistant turns map to bedrockTurn shape, every other turn to none. -/
def mapTurn (msg : Json) : Option Json :=
  match objGet? msg "role" with
  | none => none
  | some role =>
    if isStrEq role "user" then (objGet? msg "content").map (bedrockTurn "user")
    else if isStrEq role "assistant" then (objGet? msg "content").map (bedrockTurn "assistant")
    else none

/-- A turn whose role is the string user or assistant (the kept ones). -/
def keptTurn (msg : Json) : Bool :=
  match objGet? msg "role" with
  | none => false
  | some role => isStrEq role "user" || isStrEq role "assistant"

/-- A decoded turn that is an object carrying both a role and a content key. -/
def wellFormedTurn (msg : Json) : Bool :=
  match msg with
  | .obj kvs => (lookupKey "role" kvs).isSome && (lookupKey "content" kvs).isSome
  | _ => false

/-- The pure view of the hosted reply extraction path (line 183): the text
field of the first content element of output.message, none when any level
is missing or mis-shaped. -/
def hostedExtract? (response_body : Json) : Option Json :=
  match objGet? response_body "output" with
  | none => none
  | some output =>
    match objGet? output "message" with
    | none => none
    | some message =>
      match objGet? message "content" with
      | some (Json.arr (c0 :: _)) => objGet? c0 "text"
      | _ => none

/-- Strip a literal character prefix, none when it does not match. -/
def stripPrefixChars : List Char → List Char → Option (List Char)
  | [], cs => some cs
  | _ :: _, [] => none
  | p :: ps, c :: cs => if p = c then stripPrefixChars ps cs else none

/-- The literal part of the regex on index.py line 12. -/
def arnLiteral : List Char := "arn:aws:lambda:".toList

/-- The character class of the regex group, every character but a colon. -/
def notColon : Char → Bool := fun c => decide (c ≠ ':')

/-- Attempt of the regex arn:aws:lambda:([^:]+): at one position: the
literal, then a maximal nonempty run of non-colon characters, then a colon.
Greedy matching with backtracking collapses to exactly this: the run cannot
be shortened below maximal because every shorter cut leaves a non-colon
character where the final colon is required, and the character after the
maximal run, when one exists, is necessarily the required colon. -/
def regionMatchAt (cs : List Char) : Option (List Char) :=
  match stripPrefixChars arnLiteral cs with
  | none => none
  | some rest =>
    let run := rest.takeWhile notColon
    let rem := rest.dropWhile notColon
    if rem.isEmpty then none
    else if run.isEmpty then none else some run

/-- re.search: the leftmost position where the pattern matches. -/
def regionSearch : List Char → Option (List Char)
  | [] => none
  | c :: cs =>
    match regionMatchAt (c :: cs) with
    | some g => some g
    | none => regionSearch cs

/-- extract_region_from_arn (index.py lines 10-15): group 1 of the first
match of arn:aws:lambda:([^:]+): anywhere in the string, default us-east-1. -/
def extract_region_from_arn (arn : String) : String :=
  match regionSearch arn.toList with
  | some g => String.mk g
  | none => "us-east-1"

/-- A hosted-backend stub whose decoded reply carries the text "hi there". -/
def hostedStubHi : Json → Except String Json := fun _ =>
  .ok (Json.obj [("output", Json.obj [("message", Json.obj [("content",
    Json.arr [Json.obj [("text", Json.str "hi there")]])])])])

/-- A self-hosted-backend stub whose decoded reply carries both fields. -/
def fastStubOk : Json → Except String Json := fun _ =>
  .ok (Json.obj [("generated_text", Json.str "pong"),
                 ("response_time", Json.num 1)])

/-- A self-hosted-backend stub that echoes the request payload it was sent
back as the generated text, so the transmitted payload is observable in the
response envelope. -/
def echoBackend : Json → Except String Json := fun p =>
  .ok (Json.obj [("generated_text", p), ("response_time", Json.num 0)])

/-- Claim C1: on the hosted path, given inbound history [] and message
"hello", with a backend whose reply decodes to
output.message.content = [text "hi there"], lambda_handler returns
statusCode 200 with success=true, response "hi there", and
conversationHistory = [user "hello", assistant "hi there"]. -/
theorem claim_C1 :
    lambda_handler hostedStubHi
      (some (Json.obj [("message", Json.str "hello"),
                       ("conversationHistory", Json.arr [])]))
    = HttpResponse.mk 200 corsHeaders
        (Json.obj [("success", Json.bool true),
                   ("response", Json.str "hi there"),
                   ("conversationHistory", Json.arr
                     [Json.obj [("role", Json.str "user"),
                                ("content", Json.str "hello")],
                      Json.obj [("role", Json.str "assistant"),
                                ("content", Json.str "hi there")]])]) := by
  rfl

/-- Claim C3: on the self-hosted path, for every message, caller history and
backend reply fields, a successful invocation returns the caller-supplied
history with exactly the one assistant turn appended; the user turn is not
re-added. -/
theorem claim_C3 (m g t : Json) (xs : List Json) :
    lambda_fastapi_handler
      (fun _ => .ok (Json.obj [("generated_text", g), ("response_time", t)]))
      (some (Json.obj [("message", m), ("conversationHistory", Json.arr xs)]))
    = HttpResponse.mk 200 corsHeaders
        (Json.obj [("success", Json.bool true),
                   ("response", g),
                   ("response_time", t),
                   ("conversationHistory", Json.arr (xs ++ [assistantTurn g]))]) := by
  rfl

/-- Claim C8: the self-hosted path transmits exactly the payload
fastapiPayload m built from the message alone, so two events with the same
message field produce identical generation requests whatever their
conversation histories are; the echo backend surfaces the transmitted
payload as the response field of the envelope. -/
theorem claim_C8 (m : Json) (hist1 hist2 : List Json) :
    objGet? (lambda_fastapi_handler echoBackend
      (some (Json.obj [("message", m),
                       ("conversationHistory", Json.arr hist1)]))).body "response"
      = some (fastapiPayload m)
    ∧ objGet? (lambda_fastapi_handler echoBackend
      (some (Json.obj [("message", m),
                       ("conversationHistory", Json.arr hist2)]))).body "response"
      = some (fastapiPayload m) := by
  exact ⟨rfl, rfl⟩

/-- Claim C4 counterexample: a body whose message key is present with a null
value does not fail validation; both handlers proceed to the backend and
return statusCode 200 with success=true, contradicting the claimed failure
envelope. -/
theorem claim_C4_counterexample :
    (lambda_handler hostedStubHi
      (some (Json.obj [("message", Json.null)]))).statusCode = 200
    ∧ objGet? (lambda_handler hostedStubHi
        (some (Json.obj [("message", Json.null)]))).body "success"
        = some (Json.bool true)
    ∧ (lambda_fastapi_handler fastStubOk
        (some (Json.obj [("message", Json.null)]))).statusCode = 200
    ∧ objGet? (lambda_fastapi_handler fastStubOk
        (some (Json.obj [("message", Json.null)]))).body "success"
        = some (Json.bool true) := by
  exact ⟨rfl, rfl, rfl, rfl⟩

/-- Claim C4 amended: only absence of the message key fails request
validation; with a valid-JSON object body lacking that key, both handlers
return the failure envelope with the KeyError message for every backend,
hence without consulting the backend.  A null message value is accepted and
forwarded. -/
theorem claim_C4_amended (backendA backendB : Json → Except String Json)
    (kvs : List (String × Json)) (h : lookupKey "message" kvs = none) :
    lambda_handler backendA (some (Json.obj kvs))
      = errorResponse "KeyError: message"
    ∧ lambda_fastapi_handler backendB (some (Json.obj kvs))
      = errorResponse "KeyError: message" := by
  constructor
  · simp [lambda_handler, hostedComp, parseBody, pySubscript, h]
  · simp [lambda_fastapi_handler, fastapiComp, parseBody, pySubscript, h]

/-- Claim C4 amended, witnessed at the empty object body. -/
theorem claim_C4_witness :
    lookupKey "message" [] = none
    ∧ (lambda_handler hostedStubHi (some (Json.obj []))
        = errorResponse "KeyError: message"
      ∧ lambda_fastapi_handler fastStubOk (some (Json.obj []))
        = errorResponse "KeyError: message") :=
  ⟨rfl, claim_C4_amended hostedStubHi fastStubOk [] rfl⟩

/-- The binary response contract: status 200 or 500, the one fixed header
mapping, a failure body exactly success=false plus an error string on 500,
and a body led by success=true on 200. -/
abbrev envelopeInvariant (r : HttpResponse) : Prop :=
  (r.statusCode = 200 ∨ r.statusCode = 500)
  ∧ r.headers = corsHeaders
  ∧ (r.statusCode = 500 →
      ∃ msg, r.body = Json.obj [("success", Json.bool false),
                                ("error", Json.str msg)])
  ∧ (r.statusCode = 200 →
      ∃ rest, r.body = Json.obj (("success", Json.bool true) :: rest))

/-- Claim C7: for every inbound event and every backend behavior, both
handlers return statusCode 200 or 500, always with the fixed CORS headers,
with the failure body success=false plus an error message string on 500 and
a success=true body on 200 — nothing in between. -/
theorem claim_C7 (backendA backendB : Json → Except String Json)
    (e : Option Json) :
    envelopeInvariant (lambda_handler backendA e)
    ∧ envelopeInvariant (lambda_fastapi_handler backendB e) := by
  constructor
  · cases h : hostedComp backendA e with
    | error m =>
      refine ⟨Or.inr ?_, ?_, fun _ => ⟨m, ?_⟩, fun h200 => ?_⟩
      · simp [lambda_handler, h, errorResponse]
      · simp [lambda_handler, h, errorResponse]
      · simp [lambda_handler, h, errorResponse]
      · simp [lambda_handler, h, errorResponse] at h200
    | ok v =>
      obtain ⟨a, msgs⟩ := v
      refine ⟨Or.inl ?_, ?_, fun h500 => ?_,
        fun _ => ⟨[("response", a), ("conversationHistory", Json.arr msgs)], ?_⟩⟩
      · simp [lambda_handler, h]
      · simp [lambda_handler, h]
      · simp [lambda_handler, h] at h500
      · simp [lambda_handler, h]
  · cases h : fastapiComp backendB e with
    | error m =>
      refine ⟨Or.inr ?_, ?_, fun _ => ⟨m, ?_⟩, fun h200 => ?_⟩
      · simp [lambda_fastapi_handler, h, errorResponse]
      · simp [lambda_fastapi_handler, h, errorResponse]
      · simp [lambda_fastapi_handler, h, errorResponse]
      · simp [lambda_fastapi_handler, h, errorResponse] at h200
    | ok v =>
      obtain ⟨g, t, updated⟩ := v
      refine ⟨Or.inl ?_, ?_, fun h500 => ?_,
        fun _ => ⟨[("response", g), ("response_time", t),
                   ("conversationHistory", Json.arr updated)], ?_⟩⟩
      · simp [lambda_fastapi_handler, h]
      · simp [lambda_fastapi_handler, h]
      · simp [lambda_fastapi_handler, h] at h500
      · simp [lambda_fastapi_handler, h]

/-- Claim C7, witnessed: a parse failure on the hosted path lands in the
failure body shape. -/
theorem claim_C7_witness :
    ∃ msg, (lambda_handler hostedStubHi none).body
      = Json.obj [("success", Json.bool false), ("error", Json.str msg)] :=
  (claim_C7 hostedStubHi fastStubOk none).1.2.2.1 rfl

/-- The mapping loop on a list of well-formed turns: no error, the result is
the filterMap of the pure per-turn mapping, and kept plus dropped turns
account for the whole list. -/
theorem buildBedrockMessages_wellFormed (msgs : List Json)
    (h : msgs.all wellFormedTurn = true) :
    buildBedrockMessages msgs = .ok (msgs.filterMap mapTurn)
    ∧ (msgs.filterMap mapTurn).length
        + (msgs.filter (fun m => !keptTurn m)).length = msgs.length := by
  induction msgs with
  | nil => exact ⟨rfl, rfl⟩
  | cons msg rest ih =>
    rw [List.all_cons, Bool.and_eq_true] at h
    obtain ⟨hmsg, hrest⟩ := h
    obtain ⟨hb, hlen⟩ := ih hrest
    cases msg with
    | obj kvs =>
      simp only [wellFormedTurn, Bool.and_eq_true, Option.isSome_iff_exists] at hmsg
      obtain ⟨⟨r, hr⟩, c, hc⟩ := hmsg
      by_cases hu : isStrEq r "user"
      · have hmap : mapTurn (Json.obj kvs) = some (bedrockTurn "user" c) := by
          simp [mapTurn, objGet?, hr, hu, hc]
        have hkept : keptTurn (Json.obj kvs) = true := by
          simp [keptTurn, objGet?, hr, hu]
        constructor
        · simp [buildBedrockMessages, pySubscript, hr, hu, hc, hb, hmap]
        · simp only [List.filterMap_cons, List.filter_cons, hmap, hkept,
            Bool.not_true, Bool.false_eq_true, if_false, List.length_cons]
          omega
      · by_cases ha : isStrEq r "assistant"
        · have hmap : mapTurn (Json.obj kvs) = some (bedrockTurn "assistant" c) := by
            simp [mapTurn, objGet?, hr, hu, ha, hc]
          have hkept : keptTurn (Json.obj kvs) = true := by
            simp [keptTurn, objGet?, hr, hu, ha]
          constructor
          · simp [buildBedrockMessages, pySubscript, hr, hu, ha, hc, hb, hmap]
          · simp only [List.filterMap_cons, List.filter_cons, hmap, hkept,
              Bool.not_true, Bool.false_eq_true, if_false, List.length_cons]
            omega
        · have hmap : mapTurn (Json.obj kvs) = none := by
            simp [mapTurn, objGet?, hr, hu, ha]
          have hkept : keptTurn (Json.obj kvs) = false := by
            simp [keptTurn, objGet?, hr, hu, ha]
          constructor
          · simp [buildBedrockMessages, pySubscript, hr, hu, ha, hb, hmap]
          · simp only [List.filterMap_cons, List.filter_cons, hmap, hkept,
              Bool.not_false, if_true, List.length_cons]
            omega
    | null => simp [wellFormedTurn] at hmsg
    | bool b => simp [wellFormedTurn] at hmsg
    | num n => simp [wellFormedTurn] at hmsg
    | str s => simp [wellFormedTurn] at hmsg
    | arr xs => simp [wellFormedTurn] at hmsg

/-- Claim C2: on a list of turns each carrying role and content keys, the
mapped backend message list is exactly the user/assistant turns in
bedrockTurn shape, other roles are silently dropped with no error, and the
dropped count is the total count minus the mapped count. -/
theorem claim_C2 (msgs : List Json) (h : msgs.all wellFormedTurn = true) :
    buildBedrockMessages msgs = .ok (msgs.filterMap mapTurn)
    ∧ msgs.length - (msgs.filterMap mapTurn).length
        = (msgs.filter (fun m => !keptTurn m)).length := by
  obtain ⟨hb, hlen⟩ := buildBedrockMessages_wellFormed msgs h
  exact ⟨hb, by omega⟩

/-- Claim C2, witnessed on a user turn followed by a system turn: the system
turn is dropped without an error and the counts agree. -/
theorem claim_C2_witness :
    ([Json.obj [("role", Json.str "user"), ("content", Json.str "a")],
      Json.obj [("role", Json.str "system"), ("content", Json.str "b")]].all
        wellFormedTurn = true)
    ∧ (buildBedrockMessages
        [Json.obj [("role", Json.str "user"), ("content", Json.str "a")],
         Json.obj [("role", Json.str "system"), ("content", Json.str "b")]]
        = .ok ([Json.obj [("role", Json.str "user"), ("content", Json.str "a")],
                Json.obj [("role", Json.str "system"), ("content", Json.str "b")]].filterMap
                 mapTurn)
      ∧ ([Json.obj [("role", Json.str "user"), ("content", Json.str "a")],
          Json.obj [("role", Json.str "system"), ("content", Json.str "b")]].length
          - ([Json.obj [("role", Json.str "user"), ("content", Json.str "a")],
              Json.obj [("role", Json.str "system"), ("content", Json.str "b")]].filterMap
                mapTurn).length
          = ([Json.obj [("role", Json.str "user"), ("content", Json.str "a")],
              Json.obj [("role", Json.str "system"), ("content", Json.str "b")]].filter
                (fun m => !keptTurn m)).length)) :=
  ⟨rfl, claim_C2 _ rfl⟩

/-- Claim C10: on a successful hosted-path invocation, the returned
conversationHistory is the inbound history unchanged and in order — whatever
the roles of its turns, so also the ones the backend request omits —
followed by the new user turn and the new assistant turn. -/
theorem claim_C10 (m : Json) (xs bms : List Json) (rb t : Json)
    (h1 : buildBedrockMessages (xs ++ [userTurn m]) = .ok bms)
    (h2 : hostedValidate rb = .ok t) :
    lambda_handler (fun _ => .ok rb)
      (some (Json.obj [("message", m), ("conversationHistory", Json.arr xs)]))
    = HttpResponse.mk 200 corsHeaders
        (Json.obj [("success", Json.bool true),
                   ("response", t),
                   ("conversationHistory",
                     Json.arr (xs ++ [userTurn m, assistantTurn t]))]) := by
  simp [lambda_handler, hostedComp, parseBody, pySubscript, pyDictGetD,
        lookupKey, pyListCopyAppend, h1, h2]

/-- Claim C10, witnessed with an inbound history holding one system-role
turn: it is dropped from the backend messages yet returned unchanged, ahead
of the new user and assistant turns. -/
theorem claim_C10_witness :
    buildBedrockMessages
        ([Json.obj [("role", Json.str "system"), ("content", Json.str "s")]]
          ++ [userTurn (Json.str "hello")])
      = .ok [bedrockTurn "user" (Json.str "hello")]
    ∧ hostedValidate
        (Json.obj [("output", Json.obj [("message", Json.obj [("content",
          Json.arr [Json.obj [("text", Json.str "hi there")]])])])])
      = .ok (Json.str "hi there")
    ∧ lambda_handler
        (fun _ => .ok (Json.obj [("output", Json.obj [("message",
          Json.obj [("content",
            Json.arr [Json.obj [("text", Json.str "hi there")]])])])]))
        (some (Json.obj [("message", Json.str "hello"),
          ("conversationHistory", Json.arr
            [Json.obj [("role", Json.str "system"), ("content", Json.str "s")]])]))
      = HttpResponse.mk 200 corsHeaders
          (Json.obj [("success", Json.bool true),
                     ("response", Json.str "hi there"),
                     ("conversationHistory", Json.arr
                       ([Json.obj [("role", Json.str "system"),
                                   ("content", Json.str "s")]]
                         ++ [userTurn (Json.str "hello"),
                             assistantTurn (Json.str "hi there")]))]) :=
  ⟨rfl, rfl, claim_C10 (Json.str "hello")
    [Json.obj [("role", Json.str "system"), ("content", Json.str "s")]]
    [bedrockTurn "user" (Json.str "hello")]
    (Json.obj [("output", Json.obj [("message", Json.obj [("content",
      Json.arr [Json.obj [("text", Json.str "hi there")]])])])])
    (Json.str "hi there") rfl rfl⟩

/-- Every hosted backend reply either fails the line-179 validation and
line-183 extraction with a nonempty error message, or yields exactly the
text hostedExtract? reads: the reply is an object whose output.message
carries a nonempty content list whose first element bears a text field. -/
theorem hostedValidate_cases (rb : Json) :
    (∃ m, m ≠ "" ∧ hostedValidate rb = .error m)
    ∨ (∃ t, hostedValidate rb = .ok t ∧ hostedExtract? rb = some t) := by
  cases rb with
  | null => exact Or.inl ⟨_, by decide, rfl⟩
  | bool b => exact Or.inl ⟨_, by decide, rfl⟩
  | num n => exact Or.inl ⟨_, by decide, rfl⟩
  | str s => exact Or.inl ⟨_, by decide, rfl⟩
  | arr xs => exact Or.inl ⟨_, by decide, rfl⟩
  | obj kvs =>
    cases h1 : lookupKey "output" kvs with
    | none =>
      exact Or.inl ⟨"No response content from the model", by decide,
        by simp [hostedValidate, pyDictGet, h1, pyTruthy]⟩
    | some output =>
      by_cases ht1 : pyTruthy output = false
      · exact Or.inl ⟨"No response content from the model", by decide,
          by simp [hostedValidate, pyDictGet, h1, ht1]⟩
      · cases output with
        | null => simp [pyTruthy] at ht1
        | bool b =>
          exact Or.inl ⟨"AttributeError: object has no attribute get",
            by decide, by simp [hostedValidate, pyDictGet, h1, ht1]⟩
        | num n =>
          exact Or.inl ⟨"AttributeError: object has no attribute get",
            by decide, by simp [hostedValidate, pyDictGet, h1, ht1]⟩
        | str s =>
          exact Or.inl ⟨"AttributeError: object has no attribute get",
            by decide, by simp [hostedValidate, pyDictGet, h1, ht1]⟩
        | arr l =>
          exact Or.inl ⟨"AttributeError: object has no attribute get",
            by decide, by simp [hostedValidate, pyDictGet, h1, ht1]⟩
        | obj kvs2 =>
          cases h2 : lookupKey "message" kvs2 with
          | none =>
            exact Or.inl ⟨"No response content from the model", by decide,
              by simp [hostedValidate, pyDictGet, h1, ht1, h2, pyTruthy]⟩
          | some message =>
            by_cases ht2 : pyTruthy message = false
            · exact Or.inl ⟨"No response content from the model", by decide,
                by simp [hostedValidate, pyDictGet, h1, ht1, h2, ht2]⟩
            · cases message with
              | null => simp [pyTruthy] at ht2
              | bool b =>
                exact Or.inl ⟨"AttributeError: object has no attribute get",
                  by decide, by simp [hostedValidate, pyDictGet, h1, ht1, h2, ht2]⟩
              | num n =>
                exact Or.inl ⟨"AttributeError: object has no attribute get",
                  by decide, by simp [hostedValidate, pyDictGet, h1, ht1, h2, ht2]⟩
              | str s =>
                exact Or.inl ⟨"AttributeError: object has no attribute get",
                  by decide, by simp [hostedValidate, pyDictGet, h1, ht1, h2, ht2]⟩
              | arr l =>
                exact Or.inl ⟨"AttributeError: object has no attribute get",
                  by decide, by simp [hostedValidate, pyDictGet, h1, ht1, h2, ht2]⟩
              | obj kvs3 =>
                cases h3 : lookupKey "content" kvs3 with
                | none =>
                  exact Or.inl ⟨"No response content from the model", by decide,
                    by simp [hostedValidate, pyDictGet, h1, ht1, h2, ht2, h3, pyTruthy]⟩
                | some content =>
                  by_cases ht3 : pyTruthy content = false
                  · exact Or.inl ⟨"No response content from the model", by decide,
                      by simp [hostedValidate, pyDictGet, h1, ht1, h2, ht2, h3, ht3]⟩
                  · cases content with
                    | null => simp [pyTruthy] at ht3
                    | bool b =>
                      exact Or.inl ⟨"TypeError: object is not subscriptable",
                        by decide, by simp [hostedValidate, pyDictGet,
                          pyIndexZero, h1, ht1, h2, ht2, h3, ht3]⟩
                    | num n =>
                      exact Or.inl ⟨"TypeError: object is not subscriptable",
                        by decide, by simp [hostedValidate, pyDictGet,
                          pyIndexZero, h1, ht1, h2, ht2, h3, ht3]⟩
                    | obj kvsc =>
                      exact Or.inl ⟨"KeyError: 0",
                        by decide, by simp [hostedValidate, pyDictGet,
                          pyIndexZero, h1, ht1, h2, ht2, h3, ht3]⟩
                    | str s =>
                      have hs : ¬s.isEmpty := by
                        simp [pyTruthy] at ht3
                        simp [String.isEmpty_iff, ht3]
                      exact Or.inl ⟨"TypeError: object is not subscriptable by string",
                        by decide, by simp [hostedValidate, pyDictGet, pyIndexZero,
                          pySubscript, h1, ht1, h2, ht2, h3, ht3, hs]⟩
                    | arr l =>
                      cases l with
                      | nil => simp [pyTruthy] at ht3
                      | cons c0 cs =>
                        cases c0 with
                        | obj kvsx =>
                          cases h4 : lookupKey "text" kvsx with
                          | none =>
                            exact Or.inl ⟨"KeyError: text", by decide,
                              by simp [hostedValidate, pyDictGet, pyIndexZero,
                                pySubscript, h1, ht1, h2, ht2, h3, ht3, h4]⟩
                          | some tx =>
                            refine Or.inr ⟨tx, ?_, ?_⟩
                            · simp [hostedValidate, pyDictGet, pyIndexZero,
                                pySubscript, h1, ht1, h2, ht2, h3, ht3, h4]
                            · simp [hostedExtract?, objGet?, h1, h2, h3, h4]
                        | null =>
                          exact Or.inl ⟨"TypeError: object is not subscriptable by string",
                            by decide, by simp [hostedValidate, pyDictGet, pyIndexZero,
                              pySubscript, h1, ht1, h2, ht2, h3, ht3]⟩
                        | bool b =>
                          exact Or.inl ⟨"TypeError: object is not subscriptable by string",
                            by decide, by simp [hostedValidate, pyDictGet, pyIndexZero,
                              pySubscript, h1, ht1, h2, ht2, h3, ht3]⟩
                        | num n =>
                          exact Or.inl ⟨"TypeError: object is not subscriptable by string",
                            by decide, by simp [hostedValidate, pyDictGet, pyIndexZero,
                              pySubscript, h1, ht1, h2, ht2, h3, ht3]⟩
                        | str s =>
                          exact Or.inl ⟨"TypeError: object is not subscriptable by string",
                            by decide, by simp [hostedValidate, pyDictGet, pyIndexZero,
                              pySubscript, h1, ht1, h2, ht2, h3, ht3]⟩
                        | arr l2 =>
                          exact Or.inl ⟨"TypeError: object is not subscriptable by string",
                            by decide, by simp [hostedValidate, pyDictGet, pyIndexZero,
                              pySubscript, h1, ht1, h2, ht2, h3, ht3]⟩

/-- Claim C5: on the hosted path with message "hello" and history [], every
backend reply whose decoded body lacks the output.message chain, a nonempty
content list, or a text field on the first content element, produces
statusCode 500 with success=false and a nonempty error string. -/
theorem claim_C5 (rb : Json) (h : hostedExtract? rb = none) :
    (lambda_handler (fun _ => .ok rb)
      (some (Json.obj [("message", Json.str "hello"),
                       ("conversationHistory", Json.arr [])]))).statusCode = 500
    ∧ ∃ msg, msg ≠ ""
        ∧ (lambda_handler (fun _ => .ok rb)
            (some (Json.obj [("message", Json.str "hello"),
                             ("conversationHistory", Json.arr [])]))).body
          = Json.obj [("success", Json.bool false), ("error", Json.str msg)] := by
  rcases hostedValidate_cases rb with ⟨m, hm, hv⟩ | ⟨t, _, hext⟩
  · have hcomp : hostedComp (fun _ => .ok rb)
        (some (Json.obj [("message", Json.str "hello"),
                         ("conversationHistory", Json.arr [])])) = .error m := by
      simp [hostedComp, parseBody, pySubscript, pyDictGetD, lookupKey,
            pyListCopyAppend, buildBedrockMessages, userTurn, isStrEq, hv]
    refine ⟨?_, m, hm, ?_⟩
    · simp [lambda_handler, hcomp, errorResponse]
    · simp [lambda_handler, hcomp, errorResponse]
  · simp [h] at hext

/-- Claim C5, witnessed at the reply with an empty content list from the
spec example. -/
theorem claim_C5_witness :
    hostedExtract? (Json.obj [("output", Json.obj [("message",
        Json.obj [("content", Json.arr [])])])]) = none
    ∧ ((lambda_handler
          (fun _ => .ok (Json.obj [("output", Json.obj [("message",
            Json.obj [("content", Json.arr [])])])]))
          (some (Json.obj [("message", Json.str "hello"),
                           ("conversationHistory", Json.arr [])]))).statusCode = 500
      ∧ ∃ msg, msg ≠ ""
          ∧ (lambda_handler
              (fun _ => .ok (Json.obj [("output", Json.obj [("message",
                Json.obj [("content", Json.arr [])])])]))
              (some (Json.obj [("message", Json.str "hello"),
                               ("conversationHistory", Json.arr [])]))).body
            = Json.obj [("success", Json.bool false), ("error", Json.str msg)]) :=
  ⟨rfl, claim_C5 _ rfl⟩

/-- Every self-hosted backend reply either fails the line-59 membership
checks or the subsequent subscripts with a nonempty error message, or is an
object carrying both generated_text and response_time, which are extracted. -/
theorem fastapiValidate_cases (rb : Json) :
    (∃ m, m ≠ "" ∧ fastapiValidate rb = .error m)
    ∨ (∃ g t, fastapiValidate rb = .ok (g, t)
        ∧ objGet? rb "generated_text" = some g
        ∧ objGet? rb "response_time" = some t) := by
  cases rb with
  | null => exact Or.inl ⟨_, by decide, rfl⟩
  | bool b => exact Or.inl ⟨_, by decide, rfl⟩
  | num n => exact Or.inl ⟨_, by decide, rfl⟩
  | str s =>
    by_cases hg : (s.splitOn "generated_text").length > 1
    · by_cases ht : (s.splitOn "response_time").length > 1
      · exact Or.inl ⟨"TypeError: object is not subscriptable by string",
          by decide, by simp [fastapiValidate, pyContains, pySubscript, hg, ht]⟩
      · exact Or.inl ⟨"Unexpected response from FastAPI",
          by decide, by simp [fastapiValidate, pyContains, hg, ht]⟩
    · exact Or.inl ⟨"Unexpected response from FastAPI",
        by decide, by simp [fastapiValidate, pyContains, hg]⟩
  | arr xs =>
    cases hg : xs.any (fun x => match x with
        | Json.str s => s == "generated_text" | _ => false) with
    | false =>
      exact Or.inl ⟨"Unexpected response from FastAPI",
        by decide, by simp [fastapiValidate, pyContains, hg]⟩
    | true =>
      cases ht : xs.any (fun x => match x with
          | Json.str s => s == "response_time" | _ => false) with
      | false =>
        exact Or.inl ⟨"Unexpected response from FastAPI",
          by decide, by simp [fastapiValidate, pyContains, hg, ht]⟩
      | true =>
        exact Or.inl ⟨"TypeError: object is not subscriptable by string",
          by decide, by simp [fastapiValidate, pyContains, pySubscript, hg, ht]⟩
  | obj kvs =>
    cases h1 : lookupKey "generated_text" kvs with
    | none =>
      exact Or.inl ⟨"Unexpected response from FastAPI",
        by decide, by simp [fastapiValidate, pyContains, h1]⟩
    | some g =>
      cases h2 : lookupKey "response_time" kvs with
      | none =>
        exact Or.inl ⟨"Unexpected response from FastAPI",
          by decide, by simp [fastapiValidate, pyContains, h1, h2]⟩
      | some t =>
        refine Or.inr ⟨g, t, ?_, ?_, ?_⟩
        · simp [fastapiValidate, pyContains, pySubscript, h1, h2]
        · simp [objGet?, h1]
        · simp [objGet?, h2]

/-- Claim C6: on the self-hosted path with message "ping", a backend reply
lacking generated_text or response_time yields statusCode 500 with
success=false and a nonempty error; a reply carrying both yields the success
envelope with response = generated_text and response_time = response_time. -/
theorem claim_C6 (rb : Json) :
    ((objGet? rb "generated_text" = none ∨ objGet? rb "response_time" = none) →
      (lambda_fastapi_handler (fun _ => .ok rb)
        (some (Json.obj [("message", Json.str "ping")]))).statusCode = 500
      ∧ ∃ msg, msg ≠ ""
          ∧ (lambda_fastapi_handler (fun _ => .ok rb)
              (some (Json.obj [("message", Json.str "ping")]))).body
            = Json.obj [("success", Json.bool false), ("error", Json.str msg)])
    ∧ (∀ g t, objGet? rb "generated_text" = some g →
        objGet? rb "response_time" = some t →
        lambda_fastapi_handler (fun _ => .ok rb)
          (some (Json.obj [("message", Json.str "ping")]))
        = HttpResponse.mk 200 corsHeaders
            (Json.obj [("success", Json.bool true),
                       ("response", g),
                       ("response_time", t),
                       ("conversationHistory", Json.arr [assistantTurn g])])) := by
  constructor
  · intro hlack
    rcases fastapiValidate_cases rb with ⟨m, hm, hv⟩ | ⟨g, t, _, hg, ht⟩
    · have hcomp : fastapiComp (fun _ => .ok rb)
          (some (Json.obj [("message", Json.str "ping")])) = .error m := by
        simp [fastapiComp, parseBody, pySubscript, pyDictGetD, lookupKey, hv]
      refine ⟨?_, m, hm, ?_⟩
      · simp [lambda_fastapi_handler, hcomp, errorResponse]
      · simp [lambda_fastapi_handler, hcomp, errorResponse]
    · rcases hlack with hnone | hnone
      · rw [hnone] at hg; cases hg
      · rw [hnone] at ht; cases ht
  · intro g t hg ht
    cases rb with
    | obj kvs =>
      simp only [objGet?] at hg ht
      simp [lambda_fastapi_handler, fastapiComp, parseBody, pySubscript,
            pyDictGetD, lookupKey, fastapiValidate, pyContains,
            pyListCopyAppend, hg, ht]
    | null => simp [objGet?] at hg
    | bool b => simp [objGet?] at hg
    | num n => simp [objGet?] at hg
    | str s => simp [objGet?] at hg
    | arr l => simp [objGet?] at hg

/-- Claim C6, witnessed: an empty-object reply fails with the 500 envelope,
and a reply with both fields succeeds carrying them through. -/
theorem claim_C6_witness :
    ((lambda_fastapi_handler (fun _ => .ok (Json.obj []))
        (some (Json.obj [("message", Json.str "ping")]))).statusCode = 500
      ∧ ∃ msg, msg ≠ ""
          ∧ (lambda_fastapi_handler (fun _ => .ok (Json.obj []))
              (some (Json.obj [("message", Json.str "ping")]))).body
            = Json.obj [("success", Json.bool false), ("error", Json.str msg)])
    ∧ lambda_fastapi_handler
        (fun _ => .ok (Json.obj [("generated_text", Json.str "pong"),
                                 ("response_time", Json.num 1)]))
        (some (Json.obj [("message", Json.str "ping")]))
      = HttpResponse.mk 200 corsHeaders
          (Json.obj [("success", Json.bool true),
                     ("response", Json.str "pong"),
                     ("response_time", Json.num 1),
                     ("conversationHistory",
                       Json.arr [assistantTurn (Json.str "pong")])]) :=
  ⟨(claim_C6 (Json.obj [])).1 (Or.inl rfl),
   (claim_C6 (Json.obj [("generated_text", Json.str "pong"),
                        ("response_time", Json.num 1)])).2
     (Json.str "pong") (Json.num 1) rfl rfl⟩

/-- A successful prefix strip decomposes the input. -/
theorem stripPrefixChars_some : ∀ (p cs r : List Char),
    stripPrefixChars p cs = some r → cs = p ++ r := by
  intro p
  induction p with
  | nil => intro cs r h; cases h; rfl
  | cons a ps ih =>
    intro cs r h
    cases cs with
    | nil => cases h
    | cons c cs2 =>
      by_cases hac : a = c
      · subst hac
        simp [stripPrefixChars] at h
        rw [List.cons_append, ih cs2 r h]
      · simp [stripPrefixChars, hac] at h

/-- The head of a dropWhile remainder fails the predicate. -/
theorem dropWhile_head_false (p : Char → Bool) :
    ∀ (l : List Char) (d : Char) (tail : List Char),
    l.dropWhile p = d :: tail → p d = false := by
  intro l
  induction l with
  | nil => intro d tail h; cases h
  | cons a as ih =>
    intro d tail h
    rw [List.dropWhile_cons] at h
    by_cases hp : p a = true
    · rw [if_pos hp] at h
      exact ih d tail h
    · rw [if_neg hp] at h
      cases h
      cases hpa : p a
      · rfl
      · exact absurd hpa hp

/-- A match of the region pattern at the head of the input decomposes it
into the literal, a nonempty colon-free group, a colon and a remainder. -/
theorem regionMatchAt_some (cs g : List Char) (h : regionMatchAt cs = some g) :
    ∃ post, cs = arnLiteral ++ g ++ ':' :: post
      ∧ g ≠ [] ∧ ∀ c ∈ g, c ≠ ':' := by
  unfold regionMatchAt at h
  cases hs : stripPrefixChars arnLiteral cs with
  | none => rw [hs] at h; cases h
  | some rest =>
    rw [hs] at h
    simp only at h
    split_ifs at h with hrem hrun
    cases h
    cases hd : rest.dropWhile notColon with
    | nil => rw [hd] at hrem; simp at hrem
    | cons d tail =>
      have hdcol : d = ':' := by
        have hpd := dropWhile_head_false notColon rest d tail hd
        simpa [notColon] using hpd
      have hrest : rest = rest.takeWhile notColon ++ ':' :: tail := by
        conv_lhs => rw [← List.takeWhile_append_dropWhile notColon rest]
        rw [hd, hdcol]
      refine ⟨tail, ?_, ?_, ?_⟩
      · rw [stripPrefixChars_some arnLiteral cs rest hs]
        conv_lhs => rw [hrest]
        simp
      · intro hnil
        rw [hnil] at hrun
        simp at hrun
      · intro c hc
        have := List.mem_takeWhile_imp hc
        simpa [notColon] using this

/-- A successful leftmost search yields a decomposition somewhere in the
input: a prefix, the literal, a nonempty colon-free group and a colon. -/
theorem regionSearch_some : ∀ (cs g : List Char), regionSearch cs = some g →
    ∃ pre mid post, cs = pre ++ arnLiteral ++ mid ++ ':' :: post
      ∧ mid ≠ [] ∧ ∀ c ∈ mid, c ≠ ':' := by
  intro cs
  induction cs with
  | nil => intro g h; cases h
  | cons c cs2 ih =>
    intro g h
    unfold regionSearch at h
    cases hm : regionMatchAt (c :: cs2) with
    | some g2 =>
      rw [hm] at h
      injection h with hgg
      subst hgg
      obtain ⟨post, hdec, hne, hcol⟩ := regionMatchAt_some (c :: cs2) g2 hm
      exact ⟨[], g2, post, by simpa using hdec, hne, hcol⟩
    | none =>
      rw [hm] at h
      obtain ⟨pre, mid, post, hdec, hne, hcol⟩ := ih g h
      exact ⟨c :: pre, mid, post, by simp [hdec], hne, hcol⟩

/-- Claim C9: the region extractor maps the sample ARN to eu-west-1, and
maps every string containing no substring of the shape
arn:aws:lambda:(nonempty colon-free group): to the default us-east-1. -/
theorem claim_C9 :
    extract_region_from_arn
        "arn:aws:lambda:eu-west-1:123456789012:function:foo" = "eu-west-1"
    ∧ ∀ s : String,
        (¬ ∃ pre mid post : List Char,
            s.toList = pre ++ arnLiteral ++ mid ++ ':' :: post
            ∧ mid ≠ [] ∧ ∀ c ∈ mid, c ≠ ':') →
        extract_region_from_arn s = "us-east-1" := by
  constructor
  · rfl
  · intro s hno
    cases hs : regionSearch s.toList with
    | none =>
      unfold extract_region_from_arn
      rw [hs]
    | some g => exact absurd (regionSearch_some s.toList g hs) hno

/-- Claim C9, witnessed on an input without the pattern: the hypothesis is
discharged by a length argument, since the pattern needs at least 17
characters. -/
theorem claim_C9_witness : extract_region_from_arn "hello" = "us-east-1" :=
  claim_C9.2 "hello" (by
    rintro ⟨pre, mid, post, h, hne, hcol⟩
    have hl := congrArg List.length h
    rw [show ("hello".toList).length = 5 from rfl] at hl
    simp only [List.length_append, List.length_cons,
      show arnLiteral.length = 15 from rfl] at hl
    omega)

end SimpleChat
